import Mathlib

/-!
Verification of the strategy-fallback executor pattern and helpers of the
GmailAutomation repository.  The relevant source fragments are shallowly
embedded: each hand-rolled strategy loop becomes a recursive Lean function
over the list of strategies, where the runtime behaviour of a strategy in a
given run (its action raising or returning, the page-state checks evaluated
after it) is recorded in the strategy record, and the diagnostic-capture
environment (whether the underlying screenshot / HTML-content primitives
raise for a given label) is an explicit parameter.
-/

deriving instance DecidableEq for Except

namespace GmailAutomation

/-- One entry of a strategy result list, mirroring the objects pushed into
`createAccountResults` / `personalUseResults` / `results` in the source:
`{ name, success, error? }`. -/
structure AttemptResult where
  name : String
  success : Bool
  error : Option String
deriving Repr, DecidableEq

/-- Capture environment: for every label, whether the underlying
`page.screenshot` call and the `page.content()` / `fs.writeFileSync` pair
succeed when invoked for that label. -/
structure CaptureEnv where
  shotOk : String → Bool
  htmlOk : String → Bool

/-- Outcome of `page.screenshot({ path: png, fullPage: true })` for a label. -/
def screenshot (env : CaptureEnv) (label : String) : Except String Unit :=
  if env.shotOk label then .ok () else .error ("Screenshot failed " ++ label)

/-- Outcome of `fs.writeFileSync(html, await page.content())` for a label. -/
def pageContent (env : CaptureEnv) (label : String) : Except String Unit :=
  if env.htmlOk label then .ok () else .error ("HTML dump failed " ++ label)

/-- The `dump` helper of navigate-and-click-debug.js (src/unnamed/part_000
lines 67-76): the label is logged first, then BOTH the screenshot and the
HTML write are individually wrapped in try/catch, so this capture never
raises.  Returns (labels recorded, outcome). -/
def dumpP000 (env : CaptureEnv) (label : String) : List String × Except String Unit :=
  let _shot : Unit :=
    match screenshot env label with
    | .ok u => u
    | .error _ => ()
  let _html : Unit :=
    match pageContent env label with
    | .ok u => u
    | .error _ => ()
  ([label], .ok ())

/-- The `dump` helper of navigate-and-debug-verbose.js (src/unnamed/part_006
lines 25-32) and of the part_006 copy of navigate-and-click-debug.js (lines
256-264): the screenshot failure is caught (`.catch(...)` resp. try/catch)
but `fs.writeFileSync(html, await page.content())` is NOT protected, so an
HTML-capture failure propagates out of `dump`. -/
def dumpP006 (env : CaptureEnv) (label : String) : List String × Except String Unit :=
  let _shot : Unit :=
    match screenshot env label with
    | .ok u => u
    | .error _ => ()
  ([label], pageContent env label)

/-- Boolean success test for an action outcome. -/
def exOk : Except String Unit → Bool
  | .ok _ => true
  | .error _ => false

/-- Result of running one of the embedded strategy loops: the result entries
pushed (in push order), the break-on-success flag, the labels of all capture
invocations (in call order), and `some e` when an exception escaped the
loop. -/
structure LoopRes where
  results : List AttemptResult
  succeeded : Bool
  dumps : List String
  err : Option String
deriving Repr, DecidableEq

/-! Character-level substring containment, modelling JavaScript
`String.prototype.includes` and literal-substring regex tests. -/

/-- Whether the second list is a leading segment of the first. -/
def startsWith : List Char → List Char → Bool
  | _, [] => true
  | [], _ :: _ => false
  | a :: as, b :: bs => a == b && startsWith as bs

/-- Whether the second list occurs contiguously inside the first. -/
def hasSub : List Char → List Char → Bool
  | [], t => t.isEmpty
  | a :: s, t => startsWith (a :: s) t || hasSub s t

/-- JavaScript `s.includes(t)`. -/
def strIncludes (s t : String) : Bool := hasSub s.data t.data

/-- Leading and trailing whitespace removed. -/
def trimChars (s : List Char) : List Char :=
  ((s.dropWhile Char.isWhitespace).reverse.dropWhile Char.isWhitespace).reverse

/-- JavaScript `s.trim()`. -/
def strTrim (s : String) : String := String.mk (trimChars s.data)

/-! The Create-account strategy loop of navigate-and-click-debug.js
(src/unnamed/part_000 lines 151-178). -/

/-- A strategy of the `createAccountStrategies` loop together with its
behaviour in this run: the outcome of `strat.fn()`, the value of the
`hasChoice` page check evaluated after a normal return, and `page.url()` at
that point (used in the thrown message). -/
structure CAStrategy where
  name : String
  actOutcome : Except String Unit
  hasChoiceAfter : Bool
  urlAfter : String
deriving Repr, DecidableEq

/-- Message of the `no choice screen` error thrown when the `hasChoice`
verification fails (part_000 line 163). -/
def caFailErr (s : CAStrategy) : String :=
  "no choice screen (URL=" ++ s.urlAfter ++ ")"

/-- The result entry recorded for a failing strategy of the
`createAccountStrategies` loop: the caught message is the action error when
the action raised, and the `no choice screen` message when the action
returned but verification failed. -/
def caFailEntry (s : CAStrategy) : AttemptResult :=
  match s.actOutcome with
  | .error e => ⟨s.name, false, some e⟩
  | .ok _ => ⟨s.name, false, some (caFailErr s)⟩

/-- A strategy of the createAccount loop counts as succeeding when its
action returns normally and the `hasChoice` verification passes. -/
def caSuccB (s : CAStrategy) : Bool := exOk s.actOutcome && s.hasChoiceAfter

/-- The `createAccountStrategies` loop (part_000 lines 151-178).  Body of
each iteration: try { fn(); delay; dump(after-createAccount-name);
hasChoice check, throwing when it fails; push success; set flag; break }
catch { push failure; reload home with `.catch(() => ...)` (cannot raise);
delay }.  The catch performs no capture. -/
def caLoop (env : CaptureEnv) : List CAStrategy → LoopRes
  | [] => ⟨[], false, [], none⟩
  | s :: rest =>
    match s.actOutcome with
    | .error e =>
      let r := caLoop env rest
      { r with results := ⟨s.name, false, some e⟩ :: r.results }
    | .ok _ =>
      let d := dumpP000 env ("after-createAccount-" ++ s.name)
      match d.2 with
      | .error e =>
        let r := caLoop env rest
        { r with results := ⟨s.name, false, some e⟩ :: r.results,
                 dumps := d.1 ++ r.dumps }
      | .ok _ =>
        if s.hasChoiceAfter then
          ⟨[⟨s.name, true, none⟩], true, d.1, none⟩
        else
          let r := caLoop env rest
          { r with results := ⟨s.name, false, some (caFailErr s)⟩ :: r.results,
                   dumps := d.1 ++ r.dumps }

/-! The For-my-personal-use strategy loop of navigate-and-click-debug.js
(src/unnamed/part_000 lines 249-272). -/

/-- A strategy of the `personalUseStrategies` loop with its behaviour in
this run: the outcome of `strat.fn()` and `page.url()` after it. -/
structure PUStrategy where
  name : String
  actOutcome : Except String Unit
  urlAfter : String
deriving Repr, DecidableEq

/-- The sign-in redirect verification (part_000 line 257): the literal
regex test of `signin/identifier` against the current URL. -/
def puRedirected (s : PUStrategy) : Bool :=
  strIncludes s.urlAfter "signin/identifier"

/-- Message of the redirect error thrown when the verification fails
(part_000 line 258). -/
def puFailErr (s : PUStrategy) : String :=
  "redirected to sign-in (" ++ s.urlAfter ++ ")"

/-- Whether a personalUse strategy fails in this run: its action raises, or
it returns normally but the page has been redirected to the sign-in URL. -/
def puFails (s : PUStrategy) : Bool := !exOk s.actOutcome || puRedirected s

/-- The result entry recorded for a failing strategy of the
`personalUseStrategies` loop. -/
def puFailEntry (s : PUStrategy) : AttemptResult :=
  match s.actOutcome with
  | .error e => ⟨s.name, false, some e⟩
  | .ok _ => ⟨s.name, false, some (puFailErr s)⟩

/-- The `personalUseStrategies` loop (part_000 lines 249-272).  Body: try {
fn(); delay; dump(after-personalUse-name); throw when redirected to
sign-in; push success; set flag; break } catch { push failure; when the
earlier createAccount goal succeeded, dump(recover-to-choice-before-next) }.
`caFlag` is the surrounding `createAccountSucceeded` variable. -/
def puLoop (env : CaptureEnv) (caFlag : Bool) : List PUStrategy → LoopRes
  | [] => ⟨[], false, [], none⟩
  | s :: rest =>
    match s.actOutcome with
    | .error e =>
      let recd := if caFlag then (dumpP000 env "recover-to-choice-before-next").1 else []
      let r := puLoop env caFlag rest
      { r with results := ⟨s.name, false, some e⟩ :: r.results,
               dumps := recd ++ r.dumps }
    | .ok _ =>
      let d := dumpP000 env ("after-personalUse-" ++ s.name)
      match d.2 with
      | .error e =>
        let recd := if caFlag then (dumpP000 env "recover-to-choice-before-next").1 else []
        let r := puLoop env caFlag rest
        { r with results := ⟨s.name, false, some e⟩ :: r.results,
                 dumps := d.1 ++ recd ++ r.dumps }
      | .ok _ =>
        if puRedirected s then
          let recd := if caFlag then (dumpP000 env "recover-to-choice-before-next").1 else []
          let r := puLoop env caFlag rest
          { r with results := ⟨s.name, false, some (puFailErr s)⟩ :: r.results,
                   dumps := d.1 ++ recd ++ r.dumps }
        else
          ⟨[⟨s.name, true, none⟩], true, d.1, none⟩

/-! The attempts loops of src/unnamed/part_006: the results loop of its
navigate-and-click-debug.js copy (lines 418-433 plus the final capture at
line 443) and the attempts loop of navigate-and-debug-verbose.js (lines
209-224, final-state capture included). -/

/-- A strategy of the part_006 attempts lists: just a name and the outcome
of invoking `fn()` in this run (these loops have no verification step). -/
structure JStrategy where
  name : String
  actOutcome : Except String Unit
deriving Repr, DecidableEq

/-- The result entry recorded for a strategy of the part_006
navigate-and-click-debug.js loop whose action raised.  (Under a capture
environment whose HTML writes succeed this is the only failure mode; the
`.ok` branch is never reached under that hypothesis.) -/
def cdFailEntry (s : JStrategy) : AttemptResult :=
  match s.actOutcome with
  | .error e => ⟨s.name, false, some e⟩
  | .ok _ => ⟨s.name, false, none⟩

/-- The results loop of the part_006 navigate-and-click-debug.js (lines
418-433).  Body: try { fn(); delay; dump(after-name); push success; break }
catch (err) { dump(fail-name); push failure with err.message }.  Both dumps
use the part_006 `dump`, so a failing HTML capture raises: a raise inside
the try is caught by the catch, a raise inside the catch escapes the loop
(before the failure entry is pushed). -/
def cdLoop (env : CaptureEnv) : List JStrategy → LoopRes
  | [] => ⟨[], false, [], none⟩
  | s :: rest =>
    match s.actOutcome with
    | .ok _ =>
      let d := dumpP006 env ("after-" ++ s.name)
      match d.2 with
      | .ok _ => ⟨[⟨s.name, true, none⟩], true, d.1, none⟩
      | .error e =>
        let d2 := dumpP006 env ("fail-" ++ s.name)
        match d2.2 with
        | .ok _ =>
          let r := cdLoop env rest
          { r with results := ⟨s.name, false, some e⟩ :: r.results,
                   dumps := d.1 ++ d2.1 ++ r.dumps }
        | .error e2 => ⟨[], false, d.1 ++ d2.1, some e2⟩
    | .error e =>
      let d2 := dumpP006 env ("fail-" ++ s.name)
      match d2.2 with
      | .ok _ =>
        let r := cdLoop env rest
        { r with results := ⟨s.name, false, some e⟩ :: r.results,
                 dumps := d2.1 ++ r.dumps }
      | .error e2 => ⟨[], false, d2.1, some e2⟩

/-- The attempts loop of navigate-and-debug-verbose.js (part_006 lines
209-220).  Body: try { fn(); wait; dump(after-name); break } catch {
dump(fail-name) }.  No results are recorded; the loop only produces capture
invocations, and a raise from the capture inside the catch escapes.
Returns (capture labels in call order, outcome of the loop). -/
def vbAttempts (env : CaptureEnv) : List JStrategy → List String × Except String Unit
  | [] => ([], .ok ())
  | s :: rest =>
    match s.actOutcome with
    | .ok _ =>
      let d := dumpP006 env ("after-" ++ s.name)
      match d.2 with
      | .ok _ => (d.1, .ok ())
      | .error _ =>
        let d2 := dumpP006 env ("fail-" ++ s.name)
        match d2.2 with
        | .ok _ =>
          let r := vbAttempts env rest
          (d.1 ++ d2.1 ++ r.1, r.2)
        | .error e2 => (d.1 ++ d2.1, .error e2)
    | .error _ =>
      let d2 := dumpP006 env ("fail-" ++ s.name)
      match d2.2 with
      | .ok _ =>
        let r := vbAttempts env rest
        (d2.1 ++ r.1, r.2)
      | .error e2 => (d2.1, .error e2)

/-- The verbose attempts loop followed by the `final-state` capture
(part_006 lines 209-224).  Returns (capture labels in call order, `some e`
when an exception escaped). -/
def vbLoop (env : CaptureEnv) (strats : List JStrategy) : List String × Option String :=
  let r := vbAttempts env strats
  match r.2 with
  | .error e => (r.1, some e)
  | .ok _ =>
    let d := dumpP006 env "final-state"
    match d.2 with
    | .ok _ => (r.1 ++ d.1, none)
    | .error e => (r.1 ++ d.1, some e)

/-- Modelled from the spec claim wording (spec.md section 8, third bullet):
the expected capture-label sequence, one capture per attempted strategy,
labeled after-name when it succeeded and fail-name when it failed, plus one
final capture labeled final-state after the loop. -/
def specCaptureLabels : List JStrategy → List String
  | [] => ["final-state"]
  | s :: rest =>
    match s.actOutcome with
    | .ok _ => ["after-" ++ s.name, "final-state"]
    | .error _ => ("fail-" ++ s.name) :: specCaptureLabels rest

/-! The `clickByText` helper of src/navigate-and-capture.js (lines 46-63):
poll every `polling` ms, up to `timeout` ms, for an element matching the
selector whose trimmed innerText contains the target text; click the first
such element and return, or throw after the timeout window. -/

/-- A DOM element as seen by `clickByText`: whether
`document.querySelectorAll(selector)` returns it, and its `innerText`. -/
structure Elem where
  selMatch : Bool
  innerText : String
deriving Repr, DecidableEq

/-- One poll of `clickByText` (the `page.evaluate` body, lines 49-58): the
first element in document order among the selector matches whose trimmed
innerText contains the target text, when one exists. -/
def clickAttempt (els : List Elem) (txt : String) : Option Elem :=
  (els.filter (fun el => el.selMatch)).find?
    (fun el => strIncludes (strTrim el.innerText) txt)

/-- The timeout error message of line 62 (quotes around the interpolated
selector and text elided). -/
def timeoutMsg (sel txt : String) : String :=
  "Timeout clicking element " ++ sel ++ " containing text " ++ txt

/-- Number of polls performed before the deadline: iterations run while
elapsed time is below `timeout`, and (idealizing each evaluate as
instantaneous) each failed poll advances elapsed time by exactly `polling`
ms, giving the i-th poll at elapsed time i * polling. -/
def pollCount (timeout polling : Nat) : Nat := (timeout + polling - 1) / polling

/-- The polling loop of `clickByText`, with the remaining number of polls
made explicit as fuel; `i` is the poll index (pages may change between
polls, so the page content is a function of the poll index). -/
def clickByTextAux (pages : Nat → List Elem) (txt : String) : Nat → Nat → Option Elem
  | 0, _ => none
  | fuel + 1, i =>
    match clickAttempt (pages i) txt with
    | some el => some el
    | none => clickByTextAux pages txt fuel (i + 1)

/-- `clickByText(page, selector, text, timeout = 60000, polling = 500)`
(navigate-and-capture.js lines 46-63): returns the clicked element on
success and the timeout error when no poll within the window finds a
match.  `sel` is the selector string (used in the error message); which
elements it matches is recorded per element in `Elem.selMatch`. -/
def clickByText (pages : Nat → List Elem) (sel txt : String)
    (timeout polling : Nat) : Except String Elem :=
  match clickByTextAux pages txt (pollCount timeout polling) 0 with
  | some el => .ok el
  | none => .error (timeoutMsg sel txt)

/-! The shared step counter and `captureScreenshot` helper of
src/navigate-and-capture.js (lines 74-86 and the catch block at lines
141-155); src/unnamed/part_003 lines 30-40 and src/unnamed/part_008 carry
the identical helper. -/

/-- JavaScript `String(n).padStart(2, 0-char)` for a natural number. -/
def pad2 (n : Nat) : String :=
  if n < 10 then "0" ++ toString n else toString n

/-- Replace every run of whitespace by a single dash and lowercase the
rest: `description.replace(whitespace-runs, dash).toLowerCase()`.  The
boolean flag records whether the previous character was whitespace. -/
def collapseWsAux : Bool → List Char → List Char
  | _, [] => []
  | inRun, c :: cs =>
    if c.isWhitespace then
      (if inRun then [] else ['-']) ++ collapseWsAux true cs
    else
      c.toLower :: collapseWsAux false cs

/-- The sanitized description used in screenshot filenames. -/
def safeDesc (s : String) : String := String.mk (collapseWsAux false s.data)

/-- State shared across `captureScreenshot` calls: the `step` counter and
the screenshot files written so far (in write order). -/
structure CapState where
  step : Nat
  files : List String
deriving Repr, DecidableEq

/-- The screenshot filename for a given step number and description. -/
def screenshotName (step : Nat) (desc : String) : String :=
  pad2 step ++ "-" ++ safeDesc desc ++ ".png"

/-- `captureScreenshot(description)` (navigate-and-capture.js lines 79-86):
increments `step` unconditionally, then writes the screenshot file only
when `page` is set. -/
def captureScreenshot (pagePresent : Bool) (desc : String) (st : CapState) : CapState :=
  let newStep := st.step + 1
  { step := newStep,
    files := if pagePresent then st.files ++ [screenshotName newStep desc] else st.files }

/-- A run of `captureScreenshot` calls, each given by (page set?, description). -/
def runCaptures (st : CapState) : List (Bool × String) → CapState
  | [] => st
  | c :: cs => runCaptures (captureScreenshot c.1 c.2 st) cs

/-- The error artifact base name of the catch block (line 143):
`error-step-` followed by the padded value of the shared step counter. -/
def errorBase (st : CapState) : String := "error-step-" ++ pad2 st.step

/-- Bookkeeping for the statement of the step-counter claim: the (step
number, description) pairs of the calls that actually write a file, given
the counter value before the run. -/
def writtenEntries (n : Nat) : List (Bool × String) → List (Nat × String)
  | [] => []
  | c :: cs => (if c.1 then [(n + 1, c.2)] else []) ++ writtenEntries (n + 1) cs

/-! The whole-flow retry loop of src/unnamed/part_009
(navigate-signup-full-real.js captcha-retry variant), lines 14 and 58-140. -/

/-- `MAX_RETRIES` (part_009 line 14). -/
def MAX_RETRIES : Nat := 3000

/-- How the retry-variant script ends: `completed k` models the `return`
after attempt `k` finished all steps without a detected captcha; `exited c`
models `process.exit(c)`; `fellThrough` models the for-loop ending without
either (unreachable when started at attempt 1). -/
inductive FlowResult where
  | completed (attempt : Nat)
  | exited (code : Nat)
  | fellThrough
deriving Repr, DecidableEq

/-- The retry for-loop of part_009 lines 58-140, entered at a given
attempt number: while `attempt <= MAX_RETRIES`, run the whole flow
(`outcome attempt = true` meaning the try block completed without throwing,
i.e. no captcha was detected and no step failed); on success return, on
failure retry when `attempt < MAX_RETRIES` and otherwise exit with status
1. -/
def retryFrom (outcome : Nat → Bool) (attempt : Nat) : FlowResult :=
  if attempt ≤ MAX_RETRIES then
    if outcome attempt then
      .completed attempt
    else if h : attempt < MAX_RETRIES then
      retryFrom outcome (attempt + 1)
    else
      .exited 1
  else
    .fellThrough
termination_by MAX_RETRIES + 1 - attempt
decreasing_by omega

/-! Concrete fixtures used by witnesses and counterexamples. -/

/-- Capture environment in which every capture primitive succeeds. -/
def envAllOk : CaptureEnv := ⟨fun _ => true, fun _ => true⟩

/-- Capture environment in which every screenshot succeeds but every HTML
capture raises. -/
def envHtmlFail : CaptureEnv := ⟨fun _ => true, fun _ => false⟩

/-- A createAccount strategy whose action raises (as the css selector
strategy does when no signup link exists). -/
def wCAfail : CAStrategy :=
  ⟨"css-href-signup", .error "selector timeout", true, "https://gmail.com/"⟩

/-- A createAccount strategy whose action returns normally and whose
hasChoice verification passes. -/
def wCAsucc : CAStrategy :=
  ⟨"xpath", .ok (), true, "https://accounts.google.com/lifecycle/steps/signup/name"⟩

/-- A personalUse strategy whose action raises. -/
def wPUfail : PUStrategy := ⟨"inner-text", .error "not found", "https://gmail.com/"⟩

/-- A personalUse strategy whose action returns normally but whose run
lands on the sign-in page. -/
def wPUredir : PUStrategy :=
  ⟨"css-attribute", .ok (), "https://accounts.google.com/v3/signin/identifier?x=1"⟩

/-- A part_006 strategy whose action raises. -/
def wJfail : JStrategy := ⟨"innerText-click", .error "not found by innerText-click"⟩

/-- A part_006 strategy whose action returns normally. -/
def wJsucc : JStrategy := ⟨"xpath-click", .ok ()⟩

/-- A createAccount strategy whose action returns normally but whose
hasChoice verification fails. -/
def wCAverif : CAStrategy := ⟨"mouse-event", .ok (), false, "https://gmail.com/"⟩

/-- A page element not returned by the selector query. -/
def wElemOther : Elem := ⟨false, "Sign in"⟩

/-- A selector-matched page element whose padded innerText contains the
target text after trimming. -/
def wElemTarget : Elem := ⟨true, " Create account "⟩

/-! Helper lemmas about the capture helpers. -/

/-- The part_000 `dump` records its label and never raises, whatever the
capture environment does. -/
theorem dumpP000_eq (env : CaptureEnv) (l : String) :
    dumpP000 env l = ([l], .ok ()) := rfl

/-- The part_006 `dump` succeeds exactly on labels whose HTML capture
succeeds. -/
theorem dumpP006_ok (env : CaptureEnv) (l : String) (h : env.htmlOk l = true) :
    dumpP006 env l = ([l], .ok ()) := by
  simp [dumpP006, pageContent, h]

/-! Lemmas on the strategy loops. -/

/-- First-success behaviour of the part_000 createAccountStrategies loop:
with every strategy before `s` failing and `s` succeeding, the loop
reports success and its result list is exactly the failed prefix followed
by the one success, whatever comes after `s`. -/
theorem caLoop_first_success (env : CaptureEnv) (pre post : List CAStrategy)
    (s : CAStrategy) (hpre : ∀ t ∈ pre, caSuccB t = false) (hs : caSuccB s = true) :
    (caLoop env (pre ++ s :: post)).succeeded = true ∧
    (caLoop env (pre ++ s :: post)).results
      = pre.map caFailEntry ++ [⟨s.name, true, none⟩] := by
  induction pre with
  | nil =>
    simp only [caSuccB, Bool.and_eq_true] at hs
    obtain ⟨h1, h2⟩ := hs
    cases h : s.actOutcome with
    | error e => rw [h] at h1; simp [exOk] at h1
    | ok u =>
      cases u
      simp [caLoop, h, dumpP000_eq, h2]
  | cons t ts ih =>
    have ht := hpre t (List.mem_cons_self t ts)
    have hts : ∀ x ∈ ts, caSuccB x = false := fun x hx => hpre x (List.mem_cons_of_mem t hx)
    obtain ⟨ih1, ih2⟩ := ih hts
    simp only [caSuccB, Bool.and_eq_false_iff] at ht
    cases h : t.actOutcome with
    | error e =>
      simp [caLoop, h, ih1, ih2, caFailEntry]
    | ok u =>
      cases u
      have h2 : t.hasChoiceAfter = false := by
        rcases ht with ht | ht
        · rw [h] at ht; simp [exOk] at ht
        · exact ht
      simp [caLoop, h, h2, dumpP000_eq, ih1, ih2, caFailEntry]

/-- Exhaustion behaviour of the part_000 createAccountStrategies loop:
when every strategy fails, the loop reports failure and records one
failure entry per strategy, in order. -/
theorem caLoop_all_fail (env : CaptureEnv) (strats : List CAStrategy)
    (h : ∀ t ∈ strats, caSuccB t = false) :
    (caLoop env strats).succeeded = false ∧
    (caLoop env strats).results = strats.map caFailEntry := by
  induction strats with
  | nil => exact ⟨rfl, rfl⟩
  | cons t ts ih =>
    have ht := h t (List.mem_cons_self t ts)
    obtain ⟨ih1, ih2⟩ := ih (fun x hx => h x (List.mem_cons_of_mem t hx))
    simp only [caSuccB, Bool.and_eq_false_iff] at ht
    cases hact : t.actOutcome with
    | error e => simp [caLoop, hact, ih1, ih2, caFailEntry]
    | ok u =>
      cases u
      have h2 : t.hasChoiceAfter = false := by
        rcases ht with ht | ht
        · rw [hact] at ht; simp [exOk] at ht
        · exact ht
      simp [caLoop, hact, h2, dumpP000_eq, ih1, ih2, caFailEntry]

/-- The part_000 createAccountStrategies loop never lets an exception
escape, for every capture environment and every combination of strategy
outcomes. -/
theorem caLoop_err_none (env : CaptureEnv) (strats : List CAStrategy) :
    (caLoop env strats).err = none := by
  induction strats with
  | nil => rfl
  | cons s rest ih =>
    cases h : s.actOutcome with
    | error e => simp [caLoop, h, ih]
    | ok u =>
      cases u
      by_cases h2 : s.hasChoiceAfter <;>
        simp [caLoop, h, h2, dumpP000_eq, ih]

/-- First-success behaviour of the part_006 navigate-and-click-debug.js
results loop, under a capture environment whose HTML captures succeed. -/
theorem cdLoop_first_success (env : CaptureEnv) (henv : ∀ l, env.htmlOk l = true)
    (pre post : List JStrategy) (s : JStrategy)
    (hpre : ∀ t ∈ pre, exOk t.actOutcome = false) (hs : exOk s.actOutcome = true) :
    (cdLoop env (pre ++ s :: post)).succeeded = true ∧
    (cdLoop env (pre ++ s :: post)).results
      = pre.map cdFailEntry ++ [⟨s.name, true, none⟩] := by
  induction pre with
  | nil =>
    cases h : s.actOutcome with
    | error e => rw [h] at hs; simp [exOk] at hs
    | ok u =>
      cases u
      simp [cdLoop, h, dumpP006_ok env _ (henv _)]
  | cons t ts ih =>
    have ht := hpre t (List.mem_cons_self t ts)
    obtain ⟨ih1, ih2⟩ := ih (fun x hx => hpre x (List.mem_cons_of_mem t hx))
    cases h : t.actOutcome with
    | error e =>
      simp [cdLoop, h, dumpP006_ok env _ (henv _), ih1, ih2, cdFailEntry]
    | ok u => rw [h] at ht; simp [exOk] at ht

/-- Exhaustion behaviour of the part_006 navigate-and-click-debug.js
results loop under a capture environment whose HTML captures succeed:
every strategy failing yields one failure entry per strategy, in order,
and no success flag. -/
theorem cdLoop_all_fail (env : CaptureEnv) (henv : ∀ l, env.htmlOk l = true)
    (strats : List JStrategy) (h : ∀ t ∈ strats, exOk t.actOutcome = false) :
    (cdLoop env strats).succeeded = false ∧
    (cdLoop env strats).results = strats.map cdFailEntry := by
  induction strats with
  | nil => exact ⟨rfl, rfl⟩
  | cons t ts ih =>
    have ht := h t (List.mem_cons_self t ts)
    obtain ⟨ih1, ih2⟩ := ih (fun x hx => h x (List.mem_cons_of_mem t hx))
    cases hact : t.actOutcome with
    | error e =>
      simp [cdLoop, hact, dumpP006_ok env _ (henv _), ih1, ih2, cdFailEntry]
    | ok u => rw [hact] at ht; simp [exOk] at ht

/-- Exhaustion behaviour of the part_000 personalUseStrategies loop: when
every strategy fails (action raise or sign-in redirect), the loop reports
failure with one failure entry per strategy, in order. -/
theorem puLoop_all_fail (env : CaptureEnv) (caFlag : Bool) (strats : List PUStrategy)
    (h : ∀ t ∈ strats, puFails t = true) :
    (puLoop env caFlag strats).succeeded = false ∧
    (puLoop env caFlag strats).results = strats.map puFailEntry := by
  induction strats with
  | nil => exact ⟨rfl, rfl⟩
  | cons t ts ih =>
    have ht := h t (List.mem_cons_self t ts)
    obtain ⟨ih1, ih2⟩ := ih (fun x hx => h x (List.mem_cons_of_mem t hx))
    simp only [puFails, Bool.or_eq_true, Bool.not_eq_true'] at ht
    cases hact : t.actOutcome with
    | error e => simp [puLoop, hact, ih1, ih2, puFailEntry]
    | ok u =>
      cases u
      have h2 : puRedirected t = true := by
        rcases ht with ht | ht
        · rw [hact] at ht; simp [exOk] at ht
        · exact ht
      simp [puLoop, hact, h2, dumpP000_eq, ih1, ih2, puFailEntry]

/-- The verbose attempts loop completes without exceptions under a
capture environment whose HTML captures succeed, and the capture labels it
records, followed by the final-state label, are precisely the per-attempt
labels demanded by the spec. -/
theorem vbAttempts_spec (env : CaptureEnv) (henv : ∀ l, env.htmlOk l = true)
    (strats : List JStrategy) :
    (vbAttempts env strats).2 = .ok () ∧
    (vbAttempts env strats).1 ++ ["final-state"] = specCaptureLabels strats := by
  induction strats with
  | nil => exact ⟨rfl, rfl⟩
  | cons s rest ih =>
    obtain ⟨ih1, ih2⟩ := ih
    cases h : s.actOutcome with
    | error e =>
      refine ⟨?_, ?_⟩ <;>
        simp [vbAttempts, specCaptureLabels, h, dumpP006_ok env _ (henv _), ih1, ih2]
    | ok u =>
      cases u
      refine ⟨?_, ?_⟩ <;>
        simp [vbAttempts, specCaptureLabels, h, dumpP006_ok env _ (henv _)]

/-- Report shape of the part_000 createAccountStrategies loop: success
flag iff some entry succeeded, and the recorded names are an initial
segment of the input strategy names. -/
theorem caLoop_report (env : CaptureEnv) (strats : List CAStrategy) :
    ((caLoop env strats).succeeded = true ↔
       ∃ r ∈ (caLoop env strats).results, r.success = true) ∧
    ∃ k, (caLoop env strats).results.map AttemptResult.name
        = (strats.map CAStrategy.name).take k := by
  induction strats with
  | nil => exact ⟨by simp [caLoop], 0, rfl⟩
  | cons s rest ih =>
    obtain ⟨ih1, k, ihk⟩ := ih
    cases h : s.actOutcome with
    | error e =>
      refine ⟨?_, k + 1, ?_⟩
      · simp [caLoop, h, ih1]
      · simp [caLoop, h, ihk]
    | ok u =>
      cases u
      by_cases h2 : s.hasChoiceAfter
      · exact ⟨by simp [caLoop, h, h2, dumpP000_eq],
          1, by simp [caLoop, h, h2, dumpP000_eq]⟩
      · refine ⟨?_, k + 1, ?_⟩
        · simp [caLoop, h, h2, dumpP000_eq, ih1]
        · simp [caLoop, h, h2, dumpP000_eq, ihk]

/-- Report shape of the part_006 navigate-and-click-debug.js results
loop, for every capture environment (including ones whose captures
raise): success flag iff some entry succeeded, and the recorded names are
an initial segment of the input strategy names. -/
theorem cdLoop_report (env : CaptureEnv) (strats : List JStrategy) :
    ((cdLoop env strats).succeeded = true ↔
       ∃ r ∈ (cdLoop env strats).results, r.success = true) ∧
    ∃ k, (cdLoop env strats).results.map AttemptResult.name
        = (strats.map JStrategy.name).take k := by
  induction strats with
  | nil => exact ⟨by simp [cdLoop], 0, rfl⟩
  | cons s rest ih =>
    obtain ⟨ih1, k, ihk⟩ := ih
    cases h : s.actOutcome with
    | error e =>
      by_cases h3 : env.htmlOk ("fail-" ++ s.name)
      · refine ⟨?_, k + 1, ?_⟩
        · simp [cdLoop, h, dumpP006, pageContent, h3, ih1]
        · simp [cdLoop, h, dumpP006, pageContent, h3, ihk]
      · exact ⟨by simp [cdLoop, h, dumpP006, pageContent, h3],
          0, by simp [cdLoop, h, dumpP006, pageContent, h3]⟩
    | ok u =>
      cases u
      by_cases h2 : env.htmlOk ("after-" ++ s.name)
      · exact ⟨by simp [cdLoop, h, dumpP006, pageContent, h2],
          1, by simp [cdLoop, h, dumpP006, pageContent, h2]⟩
      · by_cases h3 : env.htmlOk ("fail-" ++ s.name)
        · refine ⟨?_, k + 1, ?_⟩
          · simp [cdLoop, h, dumpP006, pageContent, h2, h3, ih1]
          · simp [cdLoop, h, dumpP006, pageContent, h2, h3, ihk]
        · exact ⟨by simp [cdLoop, h, dumpP006, pageContent, h2, h3],
            0, by simp [cdLoop, h, dumpP006, pageContent, h2, h3]⟩

/-! Claim theorems. -/

/-- Claim C1: for every non-empty strategy list containing at least one
strategy whose action succeeds (and whose verification, if present,
passes), the executor returns overall success and the report's attempt
sequence is exactly the input prefix up to and including the first
succeeding strategy, in original order, with no later strategy attempted.
Shown for the createAccountStrategies loop of part_000 (any capture
environment) and the attempts loop of the part_006
navigate-and-click-debug.js (HTML captures succeeding): the list is split
as failing prefix, first succeeding strategy, arbitrary tail, and the
result is independent of the tail. -/
theorem executorStopsAtFirstSuccess
    (env1 env2 : CaptureEnv) (henv2 : ∀ l, env2.htmlOk l = true)
    (pre post : List CAStrategy) (s : CAStrategy)
    (hpre : ∀ t ∈ pre, caSuccB t = false) (hs : caSuccB s = true)
    (pre2 post2 : List JStrategy) (s2 : JStrategy)
    (hpre2 : ∀ t ∈ pre2, exOk t.actOutcome = false) (hs2 : exOk s2.actOutcome = true) :
    (caLoop env1 (pre ++ s :: post)).succeeded = true ∧
    (caLoop env1 (pre ++ s :: post)).results
      = pre.map caFailEntry ++ [⟨s.name, true, none⟩] ∧
    (cdLoop env2 (pre2 ++ s2 :: post2)).succeeded = true ∧
    (cdLoop env2 (pre2 ++ s2 :: post2)).results
      = pre2.map cdFailEntry ++ [⟨s2.name, true, none⟩] := by
  obtain ⟨a, b⟩ := caLoop_first_success env1 pre post s hpre hs
  obtain ⟨c, d⟩ := cdLoop_first_success env2 henv2 pre2 post2 s2 hpre2 hs2
  exact ⟨a, b, c, d⟩

/-- Claim C1 witness: one failing strategy followed by one succeeding
strategy in each loop, with an all-succeeding capture environment. -/
theorem executorStopsAtFirstSuccess_witness :
    (caLoop envAllOk [wCAfail, wCAsucc]).succeeded = true ∧
    (caLoop envAllOk [wCAfail, wCAsucc]).results
      = [caFailEntry wCAfail, ⟨"xpath", true, none⟩] ∧
    (cdLoop envAllOk [wJfail, wJsucc]).succeeded = true ∧
    (cdLoop envAllOk [wJfail, wJsucc]).results
      = [cdFailEntry wJfail, ⟨"xpath-click", true, none⟩] := by
  have h := executorStopsAtFirstSuccess envAllOk envAllOk (fun _ => rfl)
    [wCAfail] [] wCAsucc (by decide) (by decide)
    [wJfail] [] wJsucc (by decide) (by decide)
  simpa using h

/-- Claim C2: for every strategy list in which every strategy fails, the
executor returns overall failure and the report contains exactly one
failure entry per input strategy, in original order (exhaustive fallback).
Shown for the personalUseStrategies loop of part_000 (any capture
environment, any createAccountSucceeded flag) and the attempts loop of
the part_006 navigate-and-click-debug.js (HTML captures succeeding). -/
theorem executorExhaustiveFallback
    (env1 env2 : CaptureEnv) (henv2 : ∀ l, env2.htmlOk l = true) (caFlag : Bool)
    (strats : List PUStrategy) (strats2 : List JStrategy)
    (h1 : ∀ t ∈ strats, puFails t = true)
    (h2 : ∀ t ∈ strats2, exOk t.actOutcome = false) :
    (puLoop env1 caFlag strats).succeeded = false ∧
    (puLoop env1 caFlag strats).results = strats.map puFailEntry ∧
    (cdLoop env2 strats2).succeeded = false ∧
    (cdLoop env2 strats2).results = strats2.map cdFailEntry := by
  obtain ⟨a, b⟩ := puLoop_all_fail env1 caFlag strats h1
  obtain ⟨c, d⟩ := cdLoop_all_fail env2 henv2 strats2 h2
  exact ⟨a, b, c, d⟩

/-- Claim C2 witness: a raising strategy followed by a strategy that
lands on the sign-in page in the personalUse loop, and two raising
strategies in the part_006 loop. -/
theorem executorExhaustiveFallback_witness :
    (puLoop envAllOk true [wPUfail, wPUredir]).succeeded = false ∧
    (puLoop envAllOk true [wPUfail, wPUredir]).results
      = [puFailEntry wPUfail, puFailEntry wPUredir] ∧
    (cdLoop envAllOk [wJfail, ⟨"data-value-click", .error "no match"⟩]).succeeded = false ∧
    (cdLoop envAllOk [wJfail, ⟨"data-value-click", .error "no match"⟩]).results
      = [cdFailEntry wJfail, cdFailEntry ⟨"data-value-click", .error "no match"⟩] := by
  have h := executorExhaustiveFallback envAllOk envAllOk (fun _ => rfl) true
    [wPUfail, wPUredir] [wJfail, ⟨"data-value-click", .error "no match"⟩]
    (by decide) (by decide)
  simpa using h

/-- Claim C3: the executor never raises, for every strategy list and
every combination of strategy outcomes; exhaustion is surfaced only as a
false overall-success flag (part_000 lines 176-178 then log a warning and
proceed), never as a thrown error escaping the loop.  The part_000 loop
never raises under ANY capture environment; the part_006 verbose loop
completes for every combination of strategy outcomes when the HTML
captures succeed. -/
theorem executorNeverRaises
    (env1 env2 : CaptureEnv) (henv2 : ∀ l, env2.htmlOk l = true)
    (strats : List CAStrategy) (strats2 : List JStrategy) :
    (caLoop env1 strats).err = none ∧
    ((∀ t ∈ strats, caSuccB t = false) → (caLoop env1 strats).succeeded = false) ∧
    (vbLoop env2 strats2).2 = none := by
  refine ⟨caLoop_err_none env1 strats,
    fun h => (caLoop_all_fail env1 strats h).1, ?_⟩
  obtain ⟨h1, h2⟩ := vbAttempts_spec env2 henv2 strats2
  simp [vbLoop, h1, dumpP006_ok env2 _ (henv2 _)]

/-- Claim C3 witness: an exhausted createAccount run raises nothing and
reports failure, and a verbose part_006 run with a failure then a success
completes without an escaping exception. -/
theorem executorNeverRaises_witness :
    (caLoop envAllOk [wCAfail]).err = none ∧
    (caLoop envAllOk [wCAfail]).succeeded = false ∧
    (vbLoop envAllOk [wJfail, wJsucc]).2 = none := by
  have h := executorNeverRaises envAllOk envAllOk (fun _ => rfl) [wCAfail] [wJfail, wJsucc]
  exact ⟨h.1, h.2.1 (by decide), h.2.2⟩

/-- Claim C4 counterexample: in the createAccountStrategies loop of
part_000 (cited by the claim), a strategy whose action raises is attempted
and recorded as a failure, yet NO diagnostic capture at all is performed
for it — in particular none labeled fail-inner-text — contradicting
"capture is invoked exactly once per attempted strategy, labeled
fail-name when that strategy failed". -/
theorem captureLabelCounterexample :
    (caLoop envAllOk [⟨"inner-text", .error "not found", false, "https://gmail.com/"⟩]).results
      = [⟨"inner-text", false, some "not found"⟩] ∧
    (caLoop envAllOk [⟨"inner-text", .error "not found", false, "https://gmail.com/"⟩]).dumps
      = [] := ⟨rfl, rfl⟩

/-- Claim C4 (amended): in the part_006 verbose attempts loop (with HTML
captures succeeding), the capture operation is invoked exactly once per
attempted strategy — labeled fail-name when that strategy failed and
after-name when it succeeded — plus exactly one additional call labeled
final-state after the loop, whether the loop ends by first success or by
exhaustion.  (In the part_000 loop, by the counterexample, an
action-raising attempt gets no capture and a verification-failing attempt
gets an after-name capture instead.) -/
theorem captureOncePerAttempt (env : CaptureEnv) (henv : ∀ l, env.htmlOk l = true)
    (strats : List JStrategy) :
    vbLoop env strats = (specCaptureLabels strats, none) := by
  obtain ⟨h1, h2⟩ := vbAttempts_spec env henv strats
  simp [vbLoop, h1, dumpP006_ok env _ (henv _), ← h2]

/-- Claim C4 witness: a failing then a succeeding strategy yield capture
labels fail-name, after-name, final-state. -/
theorem captureOncePerAttempt_witness :
    vbLoop envAllOk [wJfail, wJsucc]
      = (["fail-innerText-click", "after-xpath-click", "final-state"], none) := by
  have h := captureOncePerAttempt envAllOk (fun _ => rfl) [wJfail, wJsucc]
  rw [h]
  decide

/-- Claim C5 counterexample: under a capture environment in which every
HTML capture raises, the part_006 verbose loop does NOT run to
completion — the capture failure propagates out of the loop — unlike the
run in which captures succeed, contradicting "capture failures are
swallowed and never propagate to the executor". -/
theorem capturePropagationCounterexample :
    (vbLoop envHtmlFail [wJfail]).2.isSome = true ∧
    (vbLoop envAllOk [wJfail]).2 = none := ⟨rfl, rfl⟩

/-- Claim C5 (amended): in navigate-and-click-debug.js (part_000), whose
dump wraps both the screenshot and the HTML write in their own try/catch,
capture failures are swallowed and logged: under EVERY capture
environment — including one in which every underlying capture call
raises — both strategy loops return reports (entries, flag, labels, no
escaping exception) identical to the all-captures-succeed run.  In the
part_006 variants, whose dump leaves the HTML write unprotected, an HTML
capture failure instead propagates out of the loop (see the
counterexample). -/
theorem captureFailuresSwallowedP000 (env env2 : CaptureEnv) (caFlag : Bool)
    (strats : List CAStrategy) (strats2 : List PUStrategy) :
    caLoop env strats = caLoop env2 strats ∧
    puLoop env caFlag strats2 = puLoop env2 caFlag strats2 := by
  constructor
  · induction strats with
    | nil => rfl
    | cons s rest ih =>
      cases h : s.actOutcome with
      | error e => simp [caLoop, h, ih]
      | ok u =>
        cases u
        by_cases h2 : s.hasChoiceAfter <;> simp [caLoop, h, h2, dumpP000_eq, ih]
  · induction strats2 with
    | nil => rfl
    | cons s rest ih =>
      cases h : s.actOutcome with
      | error e => simp [puLoop, h, dumpP000_eq, ih]
      | ok u =>
        cases u
        by_cases h2 : puRedirected s <;> simp [puLoop, h, h2, dumpP000_eq, ih]

/-- Claim C6 counterexample: in the part_000 createAccountStrategies
loop, a strategy whose action returns normally but whose hasChoice
verification fails is recorded as a failure, yet its diagnostic snapshot
carries the after-createAccount-name label (taken before verification)
and no fail-name capture exists — contradicting "the diagnostic snapshot
for that attempt is captured with the failure label fail-name". -/
theorem verificationLabelCounterexample :
    (caLoop envAllOk [⟨"inner-text", .ok (), false, "u"⟩]).results
      = [⟨"inner-text", false, some "no choice screen (URL=u)"⟩] ∧
    (caLoop envAllOk [⟨"inner-text", .ok (), false, "u"⟩]).dumps
      = ["after-createAccount-inner-text"] ∧
    "fail-inner-text" ∉ (caLoop envAllOk [⟨"inner-text", .ok (), false, "u"⟩]).dumps := by
  refine ⟨by decide, by decide, by decide⟩

/-- Claim C6 (amended): a verification predicate returning false after a
normal action return produces an AttemptResult of the same shape as an
action that raised — marked failure, carrying an error description, not
counted toward overall success, with the loop proceeding to the next
strategy — but its diagnostic snapshot is the after-name capture taken
before verification rather than a fail-name capture (the part_000 catch
performs no capture).  Stated for the hasChoice verification of the
createAccount loop and the sign-in-redirect verification of the
personalUse loop, side by side with an action-raising strategy. -/
theorem verificationFalseIsFailure (env : CaptureEnv) (caFlag : Bool)
    (s : CAStrategy) (rest : List CAStrategy)
    (hok : s.actOutcome = .ok ()) (hv : s.hasChoiceAfter = false)
    (s2 : CAStrategy) (rest2 : List CAStrategy) (e : String)
    (herr : s2.actOutcome = .error e)
    (t : PUStrategy) (restp : List PUStrategy)
    (htok : t.actOutcome = .ok ()) (htr : puRedirected t = true) :
    caLoop env (s :: rest)
      = ⟨⟨s.name, false, some (caFailErr s)⟩ :: (caLoop env rest).results,
         (caLoop env rest).succeeded,
         ("after-createAccount-" ++ s.name) :: (caLoop env rest).dumps,
         (caLoop env rest).err⟩ ∧
    caLoop env (s2 :: rest2)
      = ⟨⟨s2.name, false, some e⟩ :: (caLoop env rest2).results,
         (caLoop env rest2).succeeded,
         (caLoop env rest2).dumps,
         (caLoop env rest2).err⟩ ∧
    puLoop env caFlag (t :: restp)
      = ⟨⟨t.name, false, some (puFailErr t)⟩ :: (puLoop env caFlag restp).results,
         (puLoop env caFlag restp).succeeded,
         ("after-personalUse-" ++ t.name)
           :: ((if caFlag then ["recover-to-choice-before-next"] else [])
                ++ (puLoop env caFlag restp).dumps),
         (puLoop env caFlag restp).err⟩ := by
  refine ⟨?_, ?_, ?_⟩
  · simp [caLoop, hok, hv, dumpP000_eq]
  · simp [caLoop, herr]
  · simp [puLoop, htok, htr, dumpP000_eq]

/-- Claim C6 witness: a verification-failing strategy, an action-raising
strategy, and a sign-in-redirected strategy, each alone in its loop. -/
theorem verificationFalseIsFailure_witness :
    caLoop envAllOk [wCAverif]
      = ⟨[⟨wCAverif.name, false, some (caFailErr wCAverif)⟩], false,
         ["after-createAccount-" ++ wCAverif.name], none⟩ ∧
    caLoop envAllOk [wCAfail]
      = ⟨[⟨wCAfail.name, false, some "selector timeout"⟩], false, [], none⟩ ∧
    puLoop envAllOk true [wPUredir]
      = ⟨[⟨wPUredir.name, false, some (puFailErr wPUredir)⟩], false,
         ["after-personalUse-" ++ wPUredir.name, "recover-to-choice-before-next"],
         none⟩ := by
  have h := verificationFalseIsFailure envAllOk true wCAverif [] rfl rfl
    wCAfail [] "selector timeout" rfl wPUredir [] rfl (by decide)
  simpa using h

/-- Claim C7: for every execution report of the embedded loops, the
overall outcome flag equals success iff at least one AttemptResult in the
report is marked success, and the AttemptResult sequence is in insertion
order equal to attempt order — the recorded names form an initial segment
of the input strategy names.  Shown for the part_000 createAccount loop
and the part_006 navigate-and-click-debug.js loop, for every capture
environment and every combination of strategy outcomes. -/
theorem reportOverallIffAnySuccess (env1 env2 : CaptureEnv)
    (strats : List CAStrategy) (strats2 : List JStrategy) :
    ((caLoop env1 strats).succeeded = true ↔
       ∃ r ∈ (caLoop env1 strats).results, r.success = true) ∧
    (∃ k, (caLoop env1 strats).results.map AttemptResult.name
        = (strats.map CAStrategy.name).take k) ∧
    ((cdLoop env2 strats2).succeeded = true ↔
       ∃ r ∈ (cdLoop env2 strats2).results, r.success = true) ∧
    (∃ k, (cdLoop env2 strats2).results.map AttemptResult.name
        = (strats2.map JStrategy.name).take k) := by
  obtain ⟨a, b⟩ := caLoop_report env1 strats
  obtain ⟨c, d⟩ := cdLoop_report env2 strats2
  exact ⟨a, b, c, d⟩

/-! Lemmas for the clickByText polling loop. -/

/-- When no poll within the fuel window finds a match, the polling loop
returns nothing. -/
theorem clickByTextAux_none (pages : Nat → List Elem) (txt : String) :
    ∀ fuel i, (∀ j, j < fuel → clickAttempt (pages (i + j)) txt = none) →
    clickByTextAux pages txt fuel i = none := by
  intro fuel
  induction fuel with
  | zero => intro i _; rfl
  | succ f ih =>
    intro i h
    have h0 : clickAttempt (pages i) txt = none := by
      simpa using h 0 (Nat.succ_pos f)
    simp only [clickByTextAux, h0]
    exact ih (i + 1) (fun j hj => by
      have hs := h (j + 1) (by omega)
      rwa [show i + (j + 1) = i + 1 + j by omega] at hs)

/-- The polling loop returns the match found by the earliest poll that
has one. -/
theorem clickByTextAux_found (pages : Nat → List Elem) (txt : String) :
    ∀ k fuel i el, k < fuel →
    (∀ j, j < k → clickAttempt (pages (i + j)) txt = none) →
    clickAttempt (pages (i + k)) txt = some el →
    clickByTextAux pages txt fuel i = some el := by
  intro k
  induction k with
  | zero =>
    intro fuel i el hk h hfound
    obtain ⟨f, rfl⟩ : ∃ f, fuel = f + 1 := ⟨fuel - 1, by omega⟩
    simp only [Nat.add_zero] at hfound
    simp [clickByTextAux, hfound]
  | succ k ih =>
    intro fuel i el hk h hfound
    obtain ⟨f, rfl⟩ : ∃ f, fuel = f + 1 := ⟨fuel - 1, by omega⟩
    have h0 : clickAttempt (pages i) txt = none := by
      simpa using h 0 (by omega)
    simp only [clickByTextAux, h0]
    refine ih f (i + 1) el (by omega) (fun j hj => ?_) ?_
    · have hs := h (j + 1) (by omega)
      rwa [show i + (j + 1) = i + 1 + j by omega] at hs
    · rwa [show i + (k + 1) = i + 1 + k by omega] at hfound

/-- One poll clicks the first element in document order among the
selector matches whose trimmed innerText contains the target text. -/
theorem clickAttempt_first (txt : String) (pre : List Elem) (el : Elem) (post : List Elem)
    (hsel : el.selMatch = true) (htxt : strIncludes (strTrim el.innerText) txt = true)
    (hpre : ∀ e ∈ pre, (e.selMatch && strIncludes (strTrim e.innerText) txt) = false) :
    clickAttempt (pre ++ el :: post) txt = some el := by
  induction pre with
  | nil => simp [clickAttempt, hsel, htxt]
  | cons a as ih =>
    have ha := hpre a (List.mem_cons_self a as)
    have has : ∀ e ∈ as, (e.selMatch && strIncludes (strTrim e.innerText) txt) = false :=
      fun e he => hpre e (List.mem_cons_of_mem a he)
    by_cases hsa : a.selMatch
    · have hta : strIncludes (strTrim a.innerText) txt = false := by
        simpa [hsa] using ha
      have := ih has
      simpa [clickAttempt, hsa, hta] using this
    · have := ih has
      simpa [clickAttempt, hsa] using this

/-- Claim C8: clickByText of navigate-and-capture.js clicks the first
element in document order matching the selector whose trimmed innerText
contains the target text and returns normally, and it throws exactly when
no poll within the timeout window finds such an element: a run whose
polls all lack a match ends in the timeout error, and a run whose
earliest match appears at a poll inside the window returns that first
matching element without error. -/
theorem clickByTextSpec (pages : Nat → List Elem) (sel txt : String)
    (timeout polling : Nat) :
    ((∀ i, i < pollCount timeout polling → clickAttempt (pages i) txt = none) →
       clickByText pages sel txt timeout polling = .error (timeoutMsg sel txt)) ∧
    (∀ i el, i < pollCount timeout polling →
       (∀ j, j < i → clickAttempt (pages j) txt = none) →
       clickAttempt (pages i) txt = some el →
       clickByText pages sel txt timeout polling = .ok el) ∧
    (∀ pre el post, el.selMatch = true →
       strIncludes (strTrim el.innerText) txt = true →
       (∀ e ∈ pre, (e.selMatch && strIncludes (strTrim e.innerText) txt) = false) →
       clickAttempt (pre ++ el :: post) txt = some el) := by
  refine ⟨?_, ?_, ?_⟩
  · intro h
    have hn := clickByTextAux_none pages txt (pollCount timeout polling) 0
      (fun j hj => by simpa using h j hj)
    simp [clickByText, hn]
  · intro i el hi hprev hfound
    have hf := clickByTextAux_found pages txt i (pollCount timeout polling) 0 el hi
      (fun j hj => by simpa using hprev j hj) (by simpa using hfound)
    simp [clickByText, hf]
  · exact fun pre el post h1 h2 h3 => clickAttempt_first txt pre el post h1 h2 h3

/-- Claim C8 witness: a page whose second element is the only selector
match containing the target finds it on the first poll; an empty result
on every poll yields the timeout error. -/
theorem clickByTextSpec_witness :
    clickByText (fun _ => [wElemOther, wElemTarget])
        "a, button, span, div" "Create account" 60000 500 = .ok wElemTarget ∧
    clickByText (fun _ => [wElemOther]) "a, button, span, div" "Next" 60000 500
      = .error (timeoutMsg "a, button, span, div" "Next") := by
  constructor
  · exact (clickByTextSpec (fun _ => [wElemOther, wElemTarget])
        "a, button, span, div" "Create account" 60000 500).2.1
      0 wElemTarget (by decide) (fun j hj => absurd hj (Nat.not_lt_zero j)) (by decide)
  · exact (clickByTextSpec (fun _ => [wElemOther])
        "a, button, span, div" "Next" 60000 500).1 (fun i _ => by decide)

/-! Lemmas for the shared step counter. -/

/-- Every entry written after the counter stood at `n` carries a step
number above `n`. -/
theorem writtenEntries_gt (cs : List (Bool × String)) :
    ∀ n, ∀ e ∈ writtenEntries n cs, n < e.1 := by
  induction cs with
  | nil => intro n e he; simp [writtenEntries] at he
  | cons c cs ih =>
    intro n e he
    by_cases hc : c.1 <;> simp [writtenEntries, hc] at he
    · rcases he with he | he
      · simp [he]
      · have := ih (n + 1) e he
        omega
    · have := ih (n + 1) e he
      omega

/-- The step numbers of the written screenshots strictly increase in call
order. -/
theorem writtenEntries_chain (cs : List (Bool × String)) :
    ∀ n, List.Chain' (fun a b => a.1 < b.1) (writtenEntries n cs) := by
  induction cs with
  | nil => intro n; simp [writtenEntries]
  | cons c cs ih =>
    intro n
    by_cases hc : c.1 <;> simp [writtenEntries, hc]
    · rw [List.chain'_cons']
      refine ⟨fun b hb => ?_, ih (n + 1)⟩
      have hmem : b ∈ writtenEntries (n + 1) cs := by
        cases hh : (writtenEntries (n + 1) cs).head? with
        | none => rw [hh] at hb; simp at hb
        | some x =>
          rw [hh] at hb
          simp at hb
          subst hb
          exact List.mem_of_mem_head? hh
      have := writtenEntries_gt cs (n + 1) b hmem
      omega
    · exact ih (n + 1)

/-- Accumulated effect of a run of captureScreenshot calls. -/
theorem runCaptures_spec (calls : List (Bool × String)) :
    ∀ st : CapState,
    (runCaptures st calls).step = st.step + calls.length ∧
    (runCaptures st calls).files
      = st.files ++ (writtenEntries st.step calls).map (fun e => screenshotName e.1 e.2) := by
  induction calls with
  | nil => intro st; simp [runCaptures, writtenEntries]
  | cons c cs ih =>
    intro st
    obtain ⟨ih1, ih2⟩ := ih (captureScreenshot c.1 c.2 st)
    constructor
    · rw [runCaptures, ih1]
      simp [captureScreenshot]
      omega
    · rw [runCaptures, ih2]
      by_cases hc : c.1 <;> simp [captureScreenshot, writtenEntries, hc]

/-- Claim C9: every captureScreenshot call increments the shared step
counter by exactly one, even when page is unset and no file is written;
across a run the numeric filename prefixes of the written screenshots are
the step numbers at their calls, strictly increasing in call order; and
the error artifact base name error-step-N reflects the total number of
capture calls made (plus the counter's starting value), not the number of
files written. -/
theorem captureStepCounting (st : CapState) (calls : List (Bool × String)) (d : String) :
    (captureScreenshot false d st).step = st.step + 1 ∧
    (captureScreenshot false d st).files = st.files ∧
    (runCaptures st calls).step = st.step + calls.length ∧
    (runCaptures st calls).files
      = st.files ++ (writtenEntries st.step calls).map (fun e => screenshotName e.1 e.2) ∧
    List.Chain' (fun a b => a.1 < b.1) (writtenEntries st.step calls) ∧
    errorBase (runCaptures st calls) = "error-step-" ++ pad2 (st.step + calls.length) := by
  obtain ⟨h1, h2⟩ := runCaptures_spec calls st
  refine ⟨rfl, rfl, h1, h2, writtenEntries_chain calls st.step, ?_⟩
  rw [errorBase, h1]

/-! Lemma for the part_009 whole-flow retry loop. -/

/-- Characterization of the retry loop entered at any in-range attempt
number: either some attempt up to MAX_RETRIES succeeds and the loop
returns at the first such attempt, or all of them fail and the loop exits
with status 1 after the last one. -/
theorem retryFrom_spec (outcome : Nat → Bool) :
    ∀ n a, MAX_RETRIES - a = n → 1 ≤ a → a ≤ MAX_RETRIES →
    ((∃ k, a ≤ k ∧ k ≤ MAX_RETRIES ∧ outcome k = true ∧
        (∀ j, a ≤ j → j < k → outcome j = false) ∧
        retryFrom outcome a = .completed k) ∨
     ((∀ j, a ≤ j → j ≤ MAX_RETRIES → outcome j = false) ∧
        retryFrom outcome a = .exited 1)) := by
  intro n
  induction n with
  | zero =>
    intro a hn h1 h2
    have ha : a = MAX_RETRIES := by omega
    have hnlt : ¬a < MAX_RETRIES := by omega
    cases ho : outcome a with
    | true =>
      left
      exact ⟨a, le_refl a, h2, ho, fun j hj1 hj2 => absurd hj2 (by omega),
        by rw [retryFrom]; simp [h2, ho]⟩
    | false =>
      right
      refine ⟨fun j hj1 hj2 => ?_, by rw [retryFrom]; simp [h2, ho, hnlt]⟩
      have hja : j = a := by omega
      rwa [hja]
  | succ n ih =>
    intro a hn h1 h2
    have hlt : a < MAX_RETRIES := by omega
    cases ho : outcome a with
    | true =>
      left
      exact ⟨a, le_refl a, h2, ho, fun j hj1 hj2 => absurd hj2 (by omega),
        by rw [retryFrom]; simp [h2, ho]⟩
    | false =>
      have heq : retryFrom outcome a = retryFrom outcome (a + 1) := by
        rw [retryFrom]; simp [h2, ho, hlt]
      rcases ih (a + 1) (by omega) (by omega) (by omega) with
        ⟨k, hk1, hk2, hk3, hk4, hk5⟩ | ⟨hall, hres⟩
      · left
        refine ⟨k, by omega, hk2, hk3, fun j hj1 hj2 => ?_, heq ▸ hk5⟩
        by_cases hja : j = a
        · rwa [hja]
        · exact hk4 j (by omega) hj2
      · right
        refine ⟨fun j hj1 hj2 => ?_, heq ▸ hres⟩
        by_cases hja : j = a
        · rwa [hja]
        · exact hall j (by omega) hj2

/-- Claim C10: the whole-flow retry loop of the captcha-retry variant
performs at most MAX_RETRIES = 3000 full signup attempts and always
terminates (retryFrom is a total function): it returns after the first
attempt without a detected captcha, reported as `completed` at the first
succeeding attempt number, and when all 3000 consecutive attempts fail it
exits with status 1 instead of retrying again. -/
theorem retryLoopBounded (outcome : Nat → Bool) :
    MAX_RETRIES = 3000 ∧
    ((∃ k, 1 ≤ k ∧ k ≤ MAX_RETRIES ∧ outcome k = true ∧
        (∀ j, 1 ≤ j → j < k → outcome j = false) ∧
        retryFrom outcome 1 = .completed k) ∨
     ((∀ j, 1 ≤ j → j ≤ MAX_RETRIES → outcome j = false) ∧
        retryFrom outcome 1 = .exited 1)) :=
  ⟨rfl, retryFrom_spec outcome (MAX_RETRIES - 1) 1 rfl (le_refl 1) (by decide)⟩

/-- Claim C10 witness: the retry loop applied to the concrete outcome
function that succeeds exactly at attempt 5. -/
theorem retryLoopBounded_witness :
    MAX_RETRIES = 3000 ∧
    ((∃ k, 1 ≤ k ∧ k ≤ MAX_RETRIES ∧ (fun n => n == 5) k = true ∧
        (∀ j, 1 ≤ j → j < k → (fun n => n == 5) j = false) ∧
        retryFrom (fun n => n == 5) 1 = .completed k) ∨
     ((∀ j, 1 ≤ j → j ≤ MAX_RETRIES → (fun n => n == 5) j = false) ∧
        retryFrom (fun n => n == 5) 1 = .exited 1)) :=
  retryLoopBounded (fun n => n == 5)

end GmailAutomation
